import Mathlib

/-!
Verification of the authentication dispatcher of `taiga/auth/api.py`
(class `AuthViewSet` and its helpers).

The module is glue code over external collaborators (serializers, service
functions, a permission class, an OAuth client, a settings flag).  We embed
the dispatcher itself faithfully, and model every collaborator as an
abstract field of an `Env` record.  Each dispatcher run returns both its
outcome (`Except Err Resp`) and a trace (`List Event`) recording every
call to an external collaborator in order, so that claims of the form
"service X is never invoked" become statements about the trace.
-/

namespace TaigaAuth

/-- JSON-ish values occurring in a request payload (`request.DATA`).
`vnone` stands for Python `None`, which `dict.get(key, None)` returns
for a missing key. -/
inductive Value where
  | vstr (s : String)
  | vbool (b : Bool)
  | vnone
deriving DecidableEq, Repr

/-- A request payload: `request.DATA`, a mapping from string keys to values. -/
abbrev Data := List (String × Value)

/-- `d.get(k, None)`: the value bound to the first occurrence of key `k`,
or `vnone` when the key is absent. -/
def dataGet (d : Data) (k : String) : Value :=
  match d.find? (fun p => p.1 == k) with
  | Option.some p => p.2
  | Option.none => Value.vnone

/-- Opaque user object returned by the service layer. -/
abbrev User := Nat

/-- Opaque response payload produced by `make_auth_response_data`. -/
abbrev RespData := Nat

/-- A successful HTTP-ish response: payload plus status code. -/
abbrev Resp := RespData × Nat

/-- Errors of `taiga.base.exceptions` that this module raises, catches or
propagates. `integrityError` carries its `detail`; `requestValidationError`
is what `_parse_data` and `parse_register_type` raise on invalid input. -/
inductive Err where
  | badRequest (msg : String)
  | requestValidationError
  | integrityError (detail : String)
  | forbidden
  | authFailure
deriving DecidableEq, Repr

/-- `github.me` returns `(email, user_info)`; these are the `user_info`
attributes that `_github_login` reads. -/
structure UserInfo where
  username : Value
  full_name : Value
  id : Value
  bio : Value
deriving DecidableEq, Repr

/-- One call to an external collaborator, with the arguments passed. -/
inductive Event where
  | checkPermissionsCall (action : String) (target : Value)
  | parsePublicRegisterDataCall
  | parseRegisterTypeCall
  | parsePrivateExistingDataCall
  | parsePrivateNewDataCall
  | publicRegisterCall (d : Data)
  | privateRegisterForExistingUserCall (d : Data)
  | privateRegisterForNewUserCall (d : Data)
  | getAndValidateUserCall (username password : Value)
  | githubMeCall (code : Value)
  | githubRegisterCall (username email full_name github_id bio token : Value)
deriving DecidableEq, Repr

/-- The external collaborators of `api.py`, abstract behaviours.
`existingSerializer` models the ad-hoc inner serializer of
`parse_register_type` (`existing = serializers.BooleanField()`):
`Option.some b` when `is_valid()` holds and `data["existing"] = b`,
`Option.none` when validation fails.  The `parse_*` fields model the
three `partial(_parse_data, cls=...)` helpers: validated data or a raised
error.  Services return a user or raise. -/
structure Env where
  PUBLIC_REGISTER_ENABLED : Bool
  check_permissions : String → Value → Except Err Unit
  parse_public_register_data : Data → Except Err Data
  parse_private_register_for_existing_user_data : Data → Except Err Data
  parse_private_register_for_new_user_data : Data → Except Err Data
  existingSerializer : Data → Option Bool
  public_register : Data → Except Err User
  private_register_for_existing_user : Data → Except Err User
  private_register_for_new_user : Data → Except Err User
  get_and_validate_user : Value → Value → Except Err User
  github_me : Value → Except Err (Value × UserInfo)
  github_register : Value → Value → Value → Value → Value → Value → Except Err User
  make_auth_response_data : User → RespData

/-- `RegisterTypeEnum` of `api.py`. -/
inductive RegisterTypeEnum where
  | new_user
  | existing_user
deriving DecidableEq, Repr

/-- `parse_register_type(userdata)`: run the ad-hoc `existing` serializer;
raise `RequestValidationError` if invalid, otherwise dispatch on the
truthiness of `instance.data["existing"]`. -/
def parse_register_type (env : Env) (userdata : Data) : Except Err RegisterTypeEnum :=
  match env.existingSerializer userdata with
  | Option.none => Except.error Err.requestValidationError
  | Option.some b =>
      if b then Except.ok RegisterTypeEnum.existing_user
      else Except.ok RegisterTypeEnum.new_user

/-- The `except exc.IntegrityError as e: raise exc.BadRequest(e.detail)`
handler of `_public_register`: an `IntegrityError` escaping the `try`
body becomes `BadRequest(e.detail)`; any other exception propagates. -/
def catchIntegrity : Err → Err
  | Err.integrityError d => Err.badRequest d
  | e => e

/-- `AuthViewSet._public_register`. -/
def _public_register (env : Env) (data : Data) : Except Err Resp × List Event :=
  if env.PUBLIC_REGISTER_ENABLED = false then
    (Except.error (Err.badRequest "Public register is disabled."), [])
  else
    match env.parse_public_register_data data with
    | Except.error e =>
        (Except.error (catchIntegrity e), [Event.parsePublicRegisterDataCall])
    | Except.ok pd =>
        match env.public_register pd with
        | Except.error e =>
            (Except.error (catchIntegrity e),
             [Event.parsePublicRegisterDataCall, Event.publicRegisterCall pd])
        | Except.ok user =>
            (Except.ok (env.make_auth_response_data user, 201),
             [Event.parsePublicRegisterDataCall, Event.publicRegisterCall pd])

/-- `AuthViewSet._private_register`. -/
def _private_register (env : Env) (data : Data) : Except Err Resp × List Event :=
  match parse_register_type env data with
  | Except.error e => (Except.error e, [Event.parseRegisterTypeCall])
  | Except.ok RegisterTypeEnum.existing_user =>
      match env.parse_private_register_for_existing_user_data data with
      | Except.error e =>
          (Except.error e,
           [Event.parseRegisterTypeCall, Event.parsePrivateExistingDataCall])
      | Except.ok pd =>
          match env.private_register_for_existing_user pd with
          | Except.error e =>
              (Except.error e,
               [Event.parseRegisterTypeCall, Event.parsePrivateExistingDataCall,
                Event.privateRegisterForExistingUserCall pd])
          | Except.ok user =>
              (Except.ok (env.make_auth_response_data user, 201),
               [Event.parseRegisterTypeCall, Event.parsePrivateExistingDataCall,
                Event.privateRegisterForExistingUserCall pd])
  | Except.ok RegisterTypeEnum.new_user =>
      match env.parse_private_register_for_new_user_data data with
      | Except.error e =>
          (Except.error e,
           [Event.parseRegisterTypeCall, Event.parsePrivateNewDataCall])
      | Except.ok pd =>
          match env.private_register_for_new_user pd with
          | Except.error e =>
              (Except.error e,
               [Event.parseRegisterTypeCall, Event.parsePrivateNewDataCall,
                Event.privateRegisterForNewUserCall pd])
          | Except.ok user =>
              (Except.ok (env.make_auth_response_data user, 201),
               [Event.parseRegisterTypeCall, Event.parsePrivateNewDataCall,
                Event.privateRegisterForNewUserCall pd])

/-- `AuthViewSet.register`: permission check, then dispatch on
`request.DATA.get("type", None)`. -/
def register (env : Env) (data : Data) : Except Err Resp × List Event :=
  let ev := Event.checkPermissionsCall "register" Value.vnone
  match env.check_permissions "register" Value.vnone with
  | Except.error e => (Except.error e, [ev])
  | Except.ok _ =>
      if dataGet data "type" = Value.vstr "public" then
        let r := _public_register env data
        (r.1, ev :: r.2)
      else if dataGet data "type" = Value.vstr "private" then
        let r := _private_register env data
        (r.1, ev :: r.2)
      else
        (Except.error (Err.badRequest "invalid register type"), [ev])

/-- `AuthViewSet._login`. -/
def _login (env : Env) (data : Data) : Except Err Resp × List Event :=
  let username := dataGet data "username"
  let password := dataGet data "password"
  match env.get_and_validate_user username password with
  | Except.error e =>
      (Except.error e, [Event.getAndValidateUserCall username password])
  | Except.ok user =>
      (Except.ok (env.make_auth_response_data user, 200),
       [Event.getAndValidateUserCall username password])

/-- `AuthViewSet._github_login`. -/
def _github_login (env : Env) (data : Data) : Except Err Resp × List Event :=
  let code := dataGet data "code"
  let token := dataGet data "token"
  match env.github_me code with
  | Except.error e => (Except.error e, [Event.githubMeCall code])
  | Except.ok (email, ui) =>
      match env.github_register ui.username email ui.full_name ui.id ui.bio token with
      | Except.error e =>
          (Except.error e,
           [Event.githubMeCall code,
            Event.githubRegisterCall ui.username email ui.full_name ui.id ui.bio token])
      | Except.ok user =>
          (Except.ok (env.make_auth_response_data user, 200),
           [Event.githubMeCall code,
            Event.githubRegisterCall ui.username email ui.full_name ui.id ui.bio token])

/-- `AuthViewSet.create` (the login view): permission check, then dispatch
on `request.DATA.get("type", None)`. -/
def create (env : Env) (data : Data) : Except Err Resp × List Event :=
  let ev := Event.checkPermissionsCall "create" Value.vnone
  match env.check_permissions "create" Value.vnone with
  | Except.error e => (Except.error e, [ev])
  | Except.ok _ =>
      if dataGet data "type" = Value.vstr "normal" then
        let r := _login env data
        (r.1, ev :: r.2)
      else if dataGet data "type" = Value.vstr "github" then
        let r := _github_login env data
        (r.1, ev :: r.2)
      else
        (Except.error (Err.badRequest "invalid login type"), [ev])

/-- Is the event a call to a registration or login service function? -/
def Event.isServiceCall : Event → Bool
  | Event.publicRegisterCall _ => true
  | Event.privateRegisterForExistingUserCall _ => true
  | Event.privateRegisterForNewUserCall _ => true
  | Event.getAndValidateUserCall _ _ => true
  | Event.githubMeCall _ => true
  | Event.githubRegisterCall _ _ _ _ _ _ => true
  | _ => false

/-- Is the event a validation (serializer) call? -/
def Event.isValidationCall : Event → Bool
  | Event.parsePublicRegisterDataCall => true
  | Event.parseRegisterTypeCall => true
  | Event.parsePrivateExistingDataCall => true
  | Event.parsePrivateNewDataCall => true
  | _ => false

/-- Modelled from the spec: the ad-hoc inner serializer of
`parse_register_type`, a required boolean field `existing` (its engine,
rest_framework, is an external collaborator whose code is not in this
excerpt).  Per the spec it accepts a payload whose `existing` entry is a
boolean and rejects a missing or non-boolean `existing`. -/
def existingFieldSpec (d : Data) : Option Bool :=
  match dataGet d "existing" with
  | Value.vbool b => Option.some b
  | _ => Option.none

/-- A concrete environment where every collaborator succeeds. -/
def sampleEnv : Env :=
  { PUBLIC_REGISTER_ENABLED := true
    check_permissions := fun _ _ => Except.ok ()
    parse_public_register_data := fun d => Except.ok d
    parse_private_register_for_existing_user_data := fun d => Except.ok d
    parse_private_register_for_new_user_data := fun d => Except.ok d
    existingSerializer := existingFieldSpec
    public_register := fun _ => Except.ok 7
    private_register_for_existing_user := fun _ => Except.ok 8
    private_register_for_new_user := fun _ => Except.ok 9
    get_and_validate_user := fun _ _ => Except.ok 10
    github_me := fun _ =>
      Except.ok (Value.vstr "bob@example.com",
        { username := Value.vstr "bob", full_name := Value.vstr "Bob B",
          id := Value.vstr "42", bio := Value.vstr "hi" })
    github_register := fun _ _ _ _ _ _ => Except.ok 11
    make_auth_response_data := fun u => u + 100 }

/-- `sampleEnv` with public registration disabled. -/
def disabledEnv : Env := { sampleEnv with PUBLIC_REGISTER_ENABLED := false }

/-- `sampleEnv` whose `public_register` reports an integrity violation. -/
def conflictEnv : Env :=
  { sampleEnv with
      public_register := fun _ => Except.error (Err.integrityError "duplicated email") }

/-- `sampleEnv` whose private registration services report integrity
violations. -/
def privConflictEnv : Env :=
  { sampleEnv with
      private_register_for_existing_user :=
        fun _ => Except.error (Err.integrityError "duplicated email")
      private_register_for_new_user :=
        fun _ => Except.error (Err.integrityError "duplicated username") }

/-- `sampleEnv` whose permission check denies everything. -/
def deniedEnv : Env :=
  { sampleEnv with check_permissions := fun _ _ => Except.error Err.forbidden }

/-- Sample payloads. -/
def dpub : Data := [("type", Value.vstr "public"), ("email", Value.vstr "a@b.c")]

def dprivT : Data := [("type", Value.vstr "private"), ("existing", Value.vbool true)]

def dprivF : Data := [("type", Value.vstr "private"), ("existing", Value.vbool false)]

def dprivBad : Data := [("type", Value.vstr "private"), ("existing", Value.vstr "yes")]

def dnorm : Data :=
  [("type", Value.vstr "normal"), ("username", Value.vstr "bob"),
   ("password", Value.vstr "pw")]

def dgh : Data :=
  [("type", Value.vstr "github"), ("code", Value.vstr "c1"), ("token", Value.vstr "t1")]

/-- C1: when the payload `type` is outside the allowed set for the
operation, `register` fails with `BadRequest "invalid register type"`,
`create` fails with `BadRequest "invalid login type"`, and in each case
the trace holds only the permission check: no registration or login
service function is invoked. -/
theorem invalid_type_no_service (env : Env) (data : Data)
    (hr : env.check_permissions "register" Value.vnone = Except.ok ())
    (hc : env.check_permissions "create" Value.vnone = Except.ok ()) :
    (dataGet data "type" ≠ Value.vstr "public" →
     dataGet data "type" ≠ Value.vstr "private" →
     register env data =
       (Except.error (Err.badRequest "invalid register type"),
        [Event.checkPermissionsCall "register" Value.vnone])) ∧
    (dataGet data "type" ≠ Value.vstr "normal" →
     dataGet data "type" ≠ Value.vstr "github" →
     create env data =
       (Except.error (Err.badRequest "invalid login type"),
        [Event.checkPermissionsCall "create" Value.vnone])) := by
  constructor
  · intro h1 h2
    simp [register, hr, h1, h2]
  · intro h1 h2
    simp [create, hc, h1, h2]

/-- Witness for C1 at a concrete payload whose `type` is `"bogus"`. -/
theorem invalid_type_no_service_witness :
    register sampleEnv [("type", Value.vstr "bogus")] =
      (Except.error (Err.badRequest "invalid register type"),
       [Event.checkPermissionsCall "register" Value.vnone]) ∧
    create sampleEnv [("type", Value.vstr "bogus")] =
      (Except.error (Err.badRequest "invalid login type"),
       [Event.checkPermissionsCall "create" Value.vnone]) :=
  ⟨(invalid_type_no_service sampleEnv [("type", Value.vstr "bogus")] rfl rfl).1
      (by decide) (by decide),
   (invalid_type_no_service sampleEnv [("type", Value.vstr "bogus")] rfl rfl).2
      (by decide) (by decide)⟩

/-- C2: a public-register request with `PUBLIC_REGISTER_ENABLED = false`
fails with `BadRequest "Public register is disabled."` whatever the rest
of the payload holds; the trace holds only the permission check, so no
validation is performed and `public_register` is never called. -/
theorem public_register_disabled (env : Env) (data : Data)
    (hperm : env.check_permissions "register" Value.vnone = Except.ok ())
    (htype : dataGet data "type" = Value.vstr "public")
    (hflag : env.PUBLIC_REGISTER_ENABLED = false) :
    register env data =
      (Except.error (Err.badRequest "Public register is disabled."),
       [Event.checkPermissionsCall "register" Value.vnone]) ∧
    ∀ e ∈ (register env data).2,
      e.isServiceCall = false ∧ e.isValidationCall = false := by
  have h : register env data =
      (Except.error (Err.badRequest "Public register is disabled."),
       [Event.checkPermissionsCall "register" Value.vnone]) := by
    simp [register, hperm, htype, _public_register, hflag]
  refine ⟨h, ?_⟩
  rw [h]
  intro e he
  simp only [List.mem_singleton] at he
  subst he
  exact ⟨rfl, rfl⟩

/-- Witness for C2 at a concrete payload with an otherwise valid body. -/
theorem public_register_disabled_witness :
    register disabledEnv dpub =
      (Except.error (Err.badRequest "Public register is disabled."),
       [Event.checkPermissionsCall "register" Value.vnone]) :=
  (public_register_disabled disabledEnv dpub rfl (by decide) rfl).1

/-- C4: a private-register payload whose `existing` field is missing or
not a boolean fails with `RequestValidationError` (the inner
`existing : bool` schema, modelled from the spec, rejects it) and no
registration service is called. -/
theorem private_register_bad_existing (env : Env) (data : Data)
    (hperm : env.check_permissions "register" Value.vnone = Except.ok ())
    (htype : dataGet data "type" = Value.vstr "private")
    (hser : env.existingSerializer = existingFieldSpec)
    (hbad : ∀ b, dataGet data "existing" ≠ Value.vbool b) :
    register env data =
      (Except.error Err.requestValidationError,
       [Event.checkPermissionsCall "register" Value.vnone,
        Event.parseRegisterTypeCall]) ∧
    ∀ e ∈ (register env data).2, e.isServiceCall = false := by
  have hnone : env.existingSerializer data = Option.none := by
    rw [hser]
    unfold existingFieldSpec
    cases h : dataGet data "existing" with
    | vstr s => rfl
    | vbool b => exact absurd h (hbad b)
    | vnone => rfl
  have h : register env data =
      (Except.error Err.requestValidationError,
       [Event.checkPermissionsCall "register" Value.vnone,
        Event.parseRegisterTypeCall]) := by
    simp [register, hperm, htype, _private_register, parse_register_type, hnone]
  refine ⟨h, ?_⟩
  rw [h]
  intro e he
  simp only [List.mem_cons, List.mem_singleton, List.not_mem_nil, or_false] at he
  rcases he with he | he <;> subst he <;> rfl

/-- Witness for C4 at a payload whose `existing` field is the string
`"yes"`. -/
theorem private_register_bad_existing_witness :
    register sampleEnv dprivBad =
      (Except.error Err.requestValidationError,
       [Event.checkPermissionsCall "register" Value.vnone,
        Event.parseRegisterTypeCall]) :=
  (private_register_bad_existing sampleEnv dprivBad rfl (by decide) rfl
      (by decide)).1

/-- C5: when `public_register` raises `IntegrityError e`, the public
registration path converts it into `BadRequest e.detail`. -/
theorem public_register_integrity_to_bad_request (env : Env) (data pd : Data)
    (detail : String)
    (hperm : env.check_permissions "register" Value.vnone = Except.ok ())
    (htype : dataGet data "type" = Value.vstr "public")
    (hflag : env.PUBLIC_REGISTER_ENABLED = true)
    (hparse : env.parse_public_register_data data = Except.ok pd)
    (hsvc : env.public_register pd = Except.error (Err.integrityError detail)) :
    register env data =
      (Except.error (Err.badRequest detail),
       [Event.checkPermissionsCall "register" Value.vnone,
        Event.parsePublicRegisterDataCall,
        Event.publicRegisterCall pd]) := by
  simp [register, hperm, htype, _public_register, hflag, hparse, hsvc, catchIntegrity]

/-- Witness for C5 with a service reporting a duplicated email. -/
theorem public_register_integrity_to_bad_request_witness :
    register conflictEnv dpub =
      (Except.error (Err.badRequest "duplicated email"),
       [Event.checkPermissionsCall "register" Value.vnone,
        Event.parsePublicRegisterDataCall,
        Event.publicRegisterCall dpub]) :=
  public_register_integrity_to_bad_request conflictEnv dpub dpub
    "duplicated email" rfl (by decide) rfl rfl rfl

/-- C3: on a private-register payload whose `existing` field validates as
boolean `b`, the dispatcher validates against (and, on success, calls)
exactly the path selected by `b` — existing-user when `b = true`,
new-user when `b = false` — and the other path's serializer and service
never appear in the trace. -/
theorem private_register_routing (env : Env) (data : Data) (b : Bool)
    (hperm : env.check_permissions "register" Value.vnone = Except.ok ())
    (htype : dataGet data "type" = Value.vstr "private")
    (hex : env.existingSerializer data = Option.some b) :
    (b = true →
      Event.parsePrivateExistingDataCall ∈ (register env data).2 ∧
      (∀ pd, env.parse_private_register_for_existing_user_data data = Except.ok pd →
        Event.privateRegisterForExistingUserCall pd ∈ (register env data).2) ∧
      (∀ pd, Event.privateRegisterForNewUserCall pd ∉ (register env data).2) ∧
      Event.parsePrivateNewDataCall ∉ (register env data).2) ∧
    (b = false →
      Event.parsePrivateNewDataCall ∈ (register env data).2 ∧
      (∀ pd, env.parse_private_register_for_new_user_data data = Except.ok pd →
        Event.privateRegisterForNewUserCall pd ∈ (register env data).2) ∧
      (∀ pd, Event.privateRegisterForExistingUserCall pd ∉ (register env data).2) ∧
      Event.parsePrivateExistingDataCall ∉ (register env data).2) := by
  constructor
  · intro hb
    subst hb
    have hreg : register env data =
        ((_private_register env data).1,
         Event.checkPermissionsCall "register" Value.vnone ::
           (_private_register env data).2) := by
      simp [register, hperm, htype]
    rw [hreg]
    cases hp : env.parse_private_register_for_existing_user_data data with
    | error e =>
        refine ⟨?_, ?_, ?_, ?_⟩ <;>
          simp [_private_register, parse_register_type, hex, hp]
    | ok pd0 =>
        cases hs : env.private_register_for_existing_user pd0 with
        | error e =>
            refine ⟨?_, ?_, ?_, ?_⟩ <;>
              simp_all [_private_register, parse_register_type, hex, hp, hs]
        | ok u =>
            refine ⟨?_, ?_, ?_, ?_⟩ <;>
              simp_all [_private_register, parse_register_type, hex, hp, hs]
  · intro hb
    subst hb
    have hreg : register env data =
        ((_private_register env data).1,
         Event.checkPermissionsCall "register" Value.vnone ::
           (_private_register env data).2) := by
      simp [register, hperm, htype]
    rw [hreg]
    cases hp : env.parse_private_register_for_new_user_data data with
    | error e =>
        refine ⟨?_, ?_, ?_, ?_⟩ <;>
          simp [_private_register, parse_register_type, hex, hp]
    | ok pd0 =>
        cases hs : env.private_register_for_new_user pd0 with
        | error e =>
            refine ⟨?_, ?_, ?_, ?_⟩ <;>
              simp_all [_private_register, parse_register_type, hex, hp, hs]
        | ok u =>
            refine ⟨?_, ?_, ?_, ?_⟩ <;>
              simp_all [_private_register, parse_register_type, hex, hp, hs]

/-- Witness for C3 at a payload with `existing = true`. -/
theorem private_register_routing_witness :
    Event.parsePrivateExistingDataCall ∈ (register sampleEnv dprivT).2 ∧
    (∀ pd, sampleEnv.parse_private_register_for_existing_user_data dprivT = Except.ok pd →
      Event.privateRegisterForExistingUserCall pd ∈ (register sampleEnv dprivT).2) ∧
    (∀ pd, Event.privateRegisterForNewUserCall pd ∉ (register sampleEnv dprivT).2) ∧
    Event.parsePrivateNewDataCall ∉ (register sampleEnv dprivT).2 :=
  (private_register_routing sampleEnv dprivT true rfl (by decide) (by decide)).1 rfl

/-- C6: on every successful registration path — public, private
existing-user, private new-user — the dispatcher returns status 201 with
`make_auth_response_data` applied to the user the service returned. -/
theorem register_success_201 (env : Env) (data : Data)
    (hperm : env.check_permissions "register" Value.vnone = Except.ok ()) :
    (∀ pd u, dataGet data "type" = Value.vstr "public" →
      env.PUBLIC_REGISTER_ENABLED = true →
      env.parse_public_register_data data = Except.ok pd →
      env.public_register pd = Except.ok u →
      (register env data).1 = Except.ok (env.make_auth_response_data u, 201)) ∧
    (∀ pd u, dataGet data "type" = Value.vstr "private" →
      env.existingSerializer data = Option.some true →
      env.parse_private_register_for_existing_user_data data = Except.ok pd →
      env.private_register_for_existing_user pd = Except.ok u →
      (register env data).1 = Except.ok (env.make_auth_response_data u, 201)) ∧
    (∀ pd u, dataGet data "type" = Value.vstr "private" →
      env.existingSerializer data = Option.some false →
      env.parse_private_register_for_new_user_data data = Except.ok pd →
      env.private_register_for_new_user pd = Except.ok u →
      (register env data).1 = Except.ok (env.make_auth_response_data u, 201)) := by
  refine ⟨?_, ?_, ?_⟩
  · intro pd u htype hflag hparse hsvc
    simp [register, hperm, htype, _public_register, hflag, hparse, hsvc]
  · intro pd u htype hex hparse hsvc
    simp [register, hperm, htype, _private_register, parse_register_type, hex,
      hparse, hsvc]
  · intro pd u htype hex hparse hsvc
    simp [register, hperm, htype, _private_register, parse_register_type, hex,
      hparse, hsvc]

/-- Witness for C6 on the public path of `sampleEnv`. -/
theorem register_success_201_witness :
    (register sampleEnv dpub).1 = Except.ok (sampleEnv.make_auth_response_data 7, 201) :=
  (register_success_201 sampleEnv dpub rfl).1 dpub 7 (by decide) rfl rfl rfl

/-- C9: when a private registration service raises `IntegrityError`, the
private path propagates it unchanged — it is not converted into a
`BadRequest` as the public path's handler would do. -/
theorem private_register_propagates_integrity (env : Env) (data pd : Data)
    (detail : String)
    (hperm : env.check_permissions "register" Value.vnone = Except.ok ())
    (htype : dataGet data "type" = Value.vstr "private") :
    (env.existingSerializer data = Option.some true →
     env.parse_private_register_for_existing_user_data data = Except.ok pd →
     env.private_register_for_existing_user pd =
       Except.error (Err.integrityError detail) →
     (register env data).1 = Except.error (Err.integrityError detail)) ∧
    (env.existingSerializer data = Option.some false →
     env.parse_private_register_for_new_user_data data = Except.ok pd →
     env.private_register_for_new_user pd =
       Except.error (Err.integrityError detail) →
     (register env data).1 = Except.error (Err.integrityError detail)) := by
  constructor
  · intro hex hparse hsvc
    simp [register, hperm, htype, _private_register, parse_register_type, hex,
      hparse, hsvc]
  · intro hex hparse hsvc
    simp [register, hperm, htype, _private_register, parse_register_type, hex,
      hparse, hsvc]

/-- Witness for C9 on the existing-user path of `privConflictEnv`. -/
theorem private_register_propagates_integrity_witness :
    (register privConflictEnv dprivT).1 =
      Except.error (Err.integrityError "duplicated email") :=
  (private_register_propagates_integrity privConflictEnv dprivT dprivT
      "duplicated email" rfl (by decide)).1 (by decide) rfl rfl

/-- C7: a successful login returns status 200 with
`make_auth_response_data` of the authenticated user.  The normal path
passes the payload's `username` and `password` (defaulting to `vnone`
when absent) to `get_and_validate_user`; the github path exchanges the
payload's `code` through `github.me` and calls `github_register` with
`username`, `full_name`, `github_id` and `bio` drawn from the returned
`user_info`, the returned `email`, and the payload's `token`, as the
traces record. -/
theorem login_success_200 (env : Env) (data : Data)
    (hperm : env.check_permissions "create" Value.vnone = Except.ok ()) :
    (∀ u, dataGet data "type" = Value.vstr "normal" →
      env.get_and_validate_user (dataGet data "username") (dataGet data "password") =
        Except.ok u →
      create env data =
        (Except.ok (env.make_auth_response_data u, 200),
         [Event.checkPermissionsCall "create" Value.vnone,
          Event.getAndValidateUserCall (dataGet data "username")
            (dataGet data "password")])) ∧
    (∀ email ui u, dataGet data "type" = Value.vstr "github" →
      env.github_me (dataGet data "code") = Except.ok (email, ui) →
      env.github_register ui.username email ui.full_name ui.id ui.bio
        (dataGet data "token") = Except.ok u →
      create env data =
        (Except.ok (env.make_auth_response_data u, 200),
         [Event.checkPermissionsCall "create" Value.vnone,
          Event.githubMeCall (dataGet data "code"),
          Event.githubRegisterCall ui.username email ui.full_name ui.id ui.bio
            (dataGet data "token")])) := by
  constructor
  · intro u htype hsvc
    simp [create, hperm, htype, _login, hsvc]
  · intro email ui u htype hme hreg
    simp [create, hperm, htype, _github_login, hme, hreg]

/-- Witness for C7 on the github path of `sampleEnv`. -/
theorem login_success_200_witness :
    create sampleEnv dgh =
      (Except.ok (sampleEnv.make_auth_response_data 11, 200),
       [Event.checkPermissionsCall "create" Value.vnone,
        Event.githubMeCall (dataGet dgh "code"),
        Event.githubRegisterCall (Value.vstr "bob") (Value.vstr "bob@example.com")
          (Value.vstr "Bob B") (Value.vstr "42") (Value.vstr "hi")
          (dataGet dgh "token")]) :=
  (login_success_200 sampleEnv dgh rfl).2 (Value.vstr "bob@example.com")
    { username := Value.vstr "bob", full_name := Value.vstr "Bob B",
      id := Value.vstr "42", bio := Value.vstr "hi" }
    11 (by decide) rfl rfl

/-- C8: both views invoke the permission check first, with the action
name (`"register"` or `"create"`) and target `None`: it is the head of
every trace, and when it fails the view returns that error with nothing
else in the trace — no dispatch, validation or service call happens. -/
theorem permission_check_first (env : Env) (data : Data) :
    (register env data).2.head? =
      Option.some (Event.checkPermissionsCall "register" Value.vnone) ∧
    (create env data).2.head? =
      Option.some (Event.checkPermissionsCall "create" Value.vnone) ∧
    (∀ e, env.check_permissions "register" Value.vnone = Except.error e →
      register env data =
        (Except.error e, [Event.checkPermissionsCall "register" Value.vnone])) ∧
    (∀ e, env.check_permissions "create" Value.vnone = Except.error e →
      create env data =
        (Except.error e, [Event.checkPermissionsCall "create" Value.vnone])) := by
  refine ⟨?_, ?_, ?_, ?_⟩
  · cases h : env.check_permissions "register" Value.vnone with
    | error e => simp [register, h]
    | ok u =>
        simp only [register, h]
        split
        · simp
        · split <;> simp
  · cases h : env.check_permissions "create" Value.vnone with
    | error e => simp [create, h]
    | ok u =>
        simp only [create, h]
        split
        · simp
        · split <;> simp
  · intro e he
    simp [register, he]
  · intro e he
    simp [create, he]

/-- Witness for C8: a denying permission environment stops both views. -/
theorem permission_check_first_witness :
    register deniedEnv dpub =
      (Except.error Err.forbidden,
       [Event.checkPermissionsCall "register" Value.vnone]) ∧
    create deniedEnv dnorm =
      (Except.error Err.forbidden,
       [Event.checkPermissionsCall "create" Value.vnone]) :=
  ⟨(permission_check_first deniedEnv dpub).2.2.1 Err.forbidden rfl,
   (permission_check_first deniedEnv dnorm).2.2.2 Err.forbidden rfl⟩

/-- C10: normal login reads only `username` and `password` from the
payload, and github login only `code` and `token`: two payloads of the
same login type agreeing on those fields produce identical outcomes and
traces, whatever their other fields hold. -/
theorem login_noninterference (env : Env) (d1 d2 : Data) :
    (dataGet d1 "type" = Value.vstr "normal" →
     dataGet d2 "type" = Value.vstr "normal" →
     dataGet d1 "username" = dataGet d2 "username" →
     dataGet d1 "password" = dataGet d2 "password" →
     create env d1 = create env d2) ∧
    (dataGet d1 "type" = Value.vstr "github" →
     dataGet d2 "type" = Value.vstr "github" →
     dataGet d1 "code" = dataGet d2 "code" →
     dataGet d1 "token" = dataGet d2 "token" →
     create env d1 = create env d2) := by
  constructor
  · intro h1 h2 h3 h4
    cases hp : env.check_permissions "create" Value.vnone with
    | error e => simp [create, hp]
    | ok u => simp [create, hp, h1, h2, _login, h3, h4]
  · intro h1 h2 h3 h4
    cases hp : env.check_permissions "create" Value.vnone with
    | error e => simp [create, hp]
    | ok u => simp [create, hp, h1, h2, _github_login, h3, h4]

/-- Witness for C10: two normal-login payloads differing in `code` and
`token` behave identically. -/
theorem login_noninterference_witness :
    create sampleEnv dnorm =
      create sampleEnv (dnorm ++ [("code", Value.vstr "x"), ("token", Value.vstr "y")]) :=
  (login_noninterference sampleEnv dnorm
      (dnorm ++ [("code", Value.vstr "x"), ("token", Value.vstr "y")])).1
    (by decide) (by decide) (by decide) (by decide)

end TaigaAuth
